import Mathlib

/-!
Verification of the recording state machine in
`src/src/components/MediaRecord.tsx` (the `useReactMediaRecorder` hook).

Modelling conventions (a shallow embedding of the hook and its environment):

* The hook's React state and refs become fields of `Config`:
  `status`, `mediaBlobUrl`, `mediaRecorderRef`, `audioChunksRef`, `streamRef`.
* A `Blob` chunk is its byte content, `List Nat`; the finalized blob
  (`new Blob(audioChunksRef.current, { type: mimeType })`) concatenates the
  chunks' bytes and carries the recorder's `mimeType` tag (`Artifact`).
* `URL.createObjectURL(audioBlob)` yields a locally resolvable reference to
  the blob; `mediaBlobUrl` is modelled as `Option Artifact`, the blob the
  stored URL resolves to (`none` = the `null` url).
* Each `MediaStream` granted by `getUserMedia` gets a fresh id
  (`nextStreamId`); `releases` records, per stream id, how many times
  `stream.getTracks().forEach(track => track.stop())` was executed on it,
  so that "released exactly once" is checkable.
* `startRecording` is async: the command itself only issues the
  `getUserMedia` request (`pendingStarts` counts requests in flight); the
  environment later resolves it, either granting a stream (running the rest
  of the `try` block) or throwing (running the `catch` block, which
  distinguishes `DOMException` `NotAllowedError` from other errors).
* `mediaRecorderRef.current.stop()` asks the device to finalize;
  `finalizeRequests` counts finalizations requested but whose `onstop`
  callback has not yet run.  The `onstop` and `ondataavailable` handlers
  close over the refs, so a late callback reads the refs' current values,
  exactly as the source's closures do.
* The hook is used by `MediaRecorderComponent` with an `onStop` callback
  (`onRecordEnd`); `onStopCalls` logs the blobs passed to that callback.
-/

namespace MediaRecord

/-- The `RecordingStatus` string-literal union of the source. -/
inductive RecordingStatus where
  | idle
  | recording
  | paused
  | stopped
  | permission_denied
deriving DecidableEq, Repr

/-- A finalized blob: concatenated bytes tagged with the recorder's
reported `mimeType`. -/
structure Artifact where
  bytes : List Nat
  mime : String
deriving DecidableEq, Repr

/-- A `MediaRecorder` instance: built over a granted stream, with a
browser-chosen `mimeType`. -/
structure Recorder where
  streamId : Nat
  mimeType : String
deriving DecidableEq, Repr

/-- The hook's state and refs, plus the execution environment bookkeeping
(stream ids, per-stream release counts, in-flight async operations, and the
log of `onStop` callback invocations). -/
structure Config where
  status : RecordingStatus
  mediaBlobUrl : Option Artifact
  mediaRecorderRef : Option Recorder
  audioChunksRef : List (List Nat)
  streamRef : Option Nat
  nextStreamId : Nat
  releases : List Nat
  pendingStarts : Nat
  finalizeRequests : Nat
  onStopCalls : List Artifact
deriving DecidableEq, Repr

/-- Initial hook state: `useState("idle")`, `useState(null)`, refs `null`,
`[]`, `null`; nothing pending, no streams granted. -/
def initConfig : Config :=
  { status := .idle
    mediaBlobUrl := none
    mediaRecorderRef := none
    audioChunksRef := []
    streamRef := none
    nextStreamId := 0
    releases := []
    pendingStarts := 0
    finalizeRequests := 0
    onStopCalls := [] }

/-- `reset`: `setStatus("idle"); setMediaBlobUrl(null);
audioChunksRef.current = []`.  Note it touches neither
`mediaRecorderRef` nor `streamRef` nor the stream's tracks. -/
def reset (c : Config) : Config :=
  { c with status := .idle, mediaBlobUrl := none, audioChunksRef := [] }

/-- The synchronous part of `startRecording()`: it awaits
`navigator.mediaDevices.getUserMedia`, so invoking the command only puts a
device-access request in flight. -/
def startRequest (c : Config) : Config :=
  { c with pendingStarts := c.pendingStarts + 1 }

/-- Resumption of a pending `startRecording()` whose `getUserMedia` promise
resolved with a stream: `streamRef.current = stream;
mediaRecorderRef.current = new MediaRecorder(stream)` (handlers
registered), `mediaRecorderRef.current.start(); setStatus("recording")`.
The continuation reads none of the hook state, so it runs the same way
whatever happened since the request was issued. -/
def startGranted (mime : String) (c : Config) : Config :=
  if 0 < c.pendingStarts then
    { c with
      streamRef := some c.nextStreamId
      mediaRecorderRef := some ⟨c.nextStreamId, mime⟩
      nextStreamId := c.nextStreamId + 1
      releases := c.releases ++ [0]
      pendingStarts := c.pendingStarts - 1
      status := .recording }
  else c

/-- Resumption of a pending `startRecording()` whose `getUserMedia` promise
rejected: the `catch` block sets `permission_denied` when the error is a
`DOMException` named `NotAllowedError`, and `idle` otherwise.  No stream
was assigned and no recorder was created. -/
def startDenied (isPermissionError : Bool) (c : Config) : Config :=
  if 0 < c.pendingStarts then
    { c with
      pendingStarts := c.pendingStarts - 1
      status := if isPermissionError then .permission_denied else .idle }
  else c

/-- One execution of `stream.getTracks().forEach(track => track.stop())`
on stream `sid`: bump that stream's release count. -/
def releaseTracks (sid : Nat) (rs : List Nat) : List Nat :=
  rs.set sid (rs.getD sid 0 + 1)

/-- `stopRecording`: guarded by `mediaRecorderRef.current &&
["recording", "paused"].includes(status)`; inside, `.stop()` requests
finalization (the `onstop` callback will run later) and, if
`streamRef.current` is set, all its tracks are stopped.  `setStatus` is
not called. -/
def stopRecording (c : Config) : Config :=
  if c.mediaRecorderRef.isSome ∧ (c.status = .recording ∨ c.status = .paused) then
    match c.streamRef with
    | some sid =>
        { c with
          finalizeRequests := c.finalizeRequests + 1
          releases := releaseTracks sid c.releases }
    | none => { c with finalizeRequests := c.finalizeRequests + 1 }
  else c

/-- `pauseRecording`: guarded by `mediaRecorderRef.current &&
status === "recording"`; pauses the device and sets `paused`. -/
def pauseRecording (c : Config) : Config :=
  if c.mediaRecorderRef.isSome ∧ c.status = .recording then
    { c with status := .paused }
  else c

/-- `resumeRecording`: guarded by `mediaRecorderRef.current &&
status === "paused"`; resumes the device and sets `recording`. -/
def resumeRecording (c : Config) : Config :=
  if c.mediaRecorderRef.isSome ∧ c.status = .paused then
    { c with status := .recording }
  else c

/-- The `ondataavailable` handler: `audioChunksRef.current.push(event.data)`.
It exists once a recorder has been created. -/
def onDataAvailable (chunk : List Nat) (c : Config) : Config :=
  if c.mediaRecorderRef.isSome then
    { c with audioChunksRef := c.audioChunksRef ++ [chunk] }
  else c

/-- The `onstop` handler, run when the device reports a requested
finalization complete: build `new Blob(audioChunksRef.current,
{ type: mediaRecorderRef.current!.mimeType })`, publish its object URL via
`setMediaBlobUrl`, invoke the `onStop` callback with the blob, clear
`audioChunksRef`, and `setStatus("stopped")`.  The handler reads the refs'
current values (closure over refs). -/
def onStopHandler (c : Config) : Config :=
  match c.mediaRecorderRef with
  | some r =>
      if 0 < c.finalizeRequests then
        let audioBlob : Artifact := ⟨c.audioChunksRef.flatten, r.mimeType⟩
        { c with
          mediaBlobUrl := some audioBlob
          onStopCalls := c.onStopCalls ++ [audioBlob]
          audioChunksRef := []
          status := .stopped
          finalizeRequests := c.finalizeRequests - 1 }
      else c
  | none => c

/-- The events driving the controller: the five caller commands (a
`start()` invocation and the settlement of its access request are separate
events, since `getUserMedia` is awaited) and the two device callbacks. -/
inductive Event where
  | startCmd
  | grant (mime : String)
  | deny (isPermissionError : Bool)
  | stopCmd
  | pauseCmd
  | resumeCmd
  | resetCmd
  | dataAvailable (chunk : List Nat)
  | completion
deriving DecidableEq, Repr

/-- Dispatch one event to the corresponding source function. -/
def step : Event → Config → Config
  | .startCmd, c => startRequest c
  | .grant m, c => startGranted m c
  | .deny p, c => startDenied p c
  | .stopCmd, c => stopRecording c
  | .pauseCmd, c => pauseRecording c
  | .resumeCmd, c => resumeRecording c
  | .resetCmd, c => reset c
  | .dataAvailable b, c => onDataAvailable b c
  | .completion, c => onStopHandler c

/-- Run a sequence of events from a state (single-threaded cooperative
dispatch: events are processed one at a time, in order). -/
def run : List Event → Config → Config
  | [], c => c
  | e :: es, c => run es (step e c)

/-- A paused configuration with one accumulated chunk, used as a concrete
input for witnesses: `start` granted, one fragment `[5]`, then `pause`. -/
def pausedConfig : Config :=
  run [Event.startCmd, Event.grant "audio/webm", Event.dataAvailable [5],
       Event.pauseCmd] initConfig

/-- A recording configuration whose finalization has been requested:
`start` granted, then `stop`; the `onstop` callback is still pending. -/
def stopPendingConfig : Config :=
  run [Event.startCmd, Event.grant "audio/webm", Event.stopCmd] initConfig

/-- Delivering a sequence of fragments while a recorder exists appends
them, in order, to the chunk buffer and changes nothing else. -/
theorem run_dataAvailable (fs : List (List Nat)) (c : Config)
    (h : c.mediaRecorderRef.isSome) :
    run (fs.map Event.dataAvailable) c =
      { c with audioChunksRef := c.audioChunksRef ++ fs } := by
  induction fs generalizing c with
  | nil => simp [run]
  | cons f fs ih =>
      have hstep : step (Event.dataAvailable f) c =
          { c with audioChunksRef := c.audioChunksRef ++ [f] } := by
        simp [step, onDataAvailable, h]
      simp only [List.map_cons, run, hstep]
      rw [ih _ (by simpa using h)]
      simp

/-- C1: when the completion event fires after a sequence of
fragment-received events — starting from an empty fragment buffer, i.e.
just after the last finalize or reset — the finalized artifact's bytes are
the concatenation, in arrival order, of all fragments appended since; the
fragment buffer is then cleared and the caller's completion callback is
invoked with that binary object. -/
theorem finalize_concatenates_fragments (c : Config) (r : Recorder)
    (fs : List (List Nat)) (hr : c.mediaRecorderRef = some r)
    (hf : 0 < c.finalizeRequests) (he : c.audioChunksRef = []) :
    (step Event.completion (run (fs.map Event.dataAvailable) c)).mediaBlobUrl
        = some ⟨fs.flatten, r.mimeType⟩ ∧
    (step Event.completion (run (fs.map Event.dataAvailable) c)).audioChunksRef
        = [] ∧
    (step Event.completion (run (fs.map Event.dataAvailable) c)).onStopCalls
        = c.onStopCalls ++ [⟨fs.flatten, r.mimeType⟩] := by
  rw [run_dataAvailable fs c (by simp [hr])]
  simp [step, onStopHandler, hr, hf, he]

/-- Witness for C1 at a concrete input: a stop-pending session receiving
fragments `[1]` and `[2, 3]` finalizes to the blob `[1, 2, 3]`. -/
theorem finalize_concatenates_fragments_witness :
    stopPendingConfig.mediaRecorderRef = some ⟨0, "audio/webm"⟩ ∧
    0 < stopPendingConfig.finalizeRequests ∧
    stopPendingConfig.audioChunksRef = [] ∧
    ((step Event.completion
        (run ([[1], [2, 3]].map Event.dataAvailable) stopPendingConfig)).mediaBlobUrl
          = some ⟨[1, 2, 3], "audio/webm"⟩ ∧
     (step Event.completion
        (run ([[1], [2, 3]].map Event.dataAvailable) stopPendingConfig)).audioChunksRef
          = [] ∧
     (step Event.completion
        (run ([[1], [2, 3]].map Event.dataAvailable) stopPendingConfig)).onStopCalls
          = stopPendingConfig.onStopCalls ++ [⟨[1, 2, 3], "audio/webm"⟩]) :=
  ⟨rfl, by decide, rfl,
    finalize_concatenates_fragments stopPendingConfig ⟨0, "audio/webm"⟩
      [[1], [2, 3]] rfl (by decide) rfl⟩

/-- C7: from every prior state, `reset()` yields `status = idle`, an empty
fragment buffer and no live artifact reference. -/
theorem reset_yields_idle_empty (c : Config) :
    (step Event.resetCmd c).status = .idle ∧
    (step Event.resetCmd c).audioChunksRef = [] ∧
    (step Event.resetCmd c).mediaBlobUrl = none := by
  simp [step, reset]

/-- C8: `pauseRecording` leaves the whole state unchanged unless
`status = recording`, and `resumeRecording` leaves the whole state
unchanged unless `status = paused`. -/
theorem pause_resume_noop (c : Config) :
    (c.status ≠ .recording → step Event.pauseCmd c = c) ∧
    (c.status ≠ .paused → step Event.resumeCmd c = c) := by
  constructor
  · intro h
    simp [step, pauseRecording, h]
  · intro h
    simp [step, resumeRecording, h]

/-- Witness for C8 at a concrete input: in the initial (idle) state both
`pauseRecording` and `resumeRecording` are no-ops. -/
theorem pause_resume_noop_witness :
    (initConfig.status ≠ .recording ∧ step Event.pauseCmd initConfig = initConfig) ∧
    (initConfig.status ≠ .paused ∧ step Event.resumeCmd initConfig = initConfig) :=
  ⟨⟨by decide, (pause_resume_noop initConfig).1 (by decide)⟩,
   ⟨by decide, (pause_resume_noop initConfig).2 (by decide)⟩⟩

/-- C2 failing trace: `reset()` while `status = recording` leaves the
machine idle with the granted stream still referenced and its tracks never
stopped (release count 0): the transition out of `recording` released the
stream zero times, and the handle stays defined although the status is
neither `recording` nor `paused`. -/
theorem reset_while_recording_leaks_stream :
    (run [Event.startCmd, Event.grant "audio/webm", Event.resetCmd]
        initConfig).status = RecordingStatus.idle ∧
    (run [Event.startCmd, Event.grant "audio/webm", Event.resetCmd]
        initConfig).streamRef = some 0 ∧
    (run [Event.startCmd, Event.grant "audio/webm", Event.resetCmd]
        initConfig).releases = [0] :=
  ⟨rfl, rfl, rfl⟩

/-- C3 failing trace: starting a new session from `stopped` does not
invalidate the previous artifact — the machine records with
`mediaBlobUrl` still set, so the artifact is defined while
`status = recording`. -/
theorem restart_keeps_stale_artifact :
    (run [Event.startCmd, Event.grant "m", Event.dataAvailable [1],
          Event.stopCmd, Event.completion, Event.startCmd, Event.grant "m"]
        initConfig).status = RecordingStatus.recording ∧
    (run [Event.startCmd, Event.grant "m", Event.dataAvailable [1],
          Event.stopCmd, Event.completion, Event.startCmd, Event.grant "m"]
        initConfig).mediaBlobUrl.isSome = true :=
  ⟨rfl, rfl⟩

/-- C4 failing trace: a `start()` whose access grant resolves after an
intervening `reset()` still opens a device (a fresh stream id was
consumed) and transitions the machine to `recording`: there is no
stale-grant guard. -/
theorem stale_grant_opens_device :
    (run [Event.startCmd, Event.resetCmd, Event.grant "m"]
        initConfig).status = RecordingStatus.recording ∧
    (run [Event.startCmd, Event.resetCmd, Event.grant "m"]
        initConfig).nextStreamId = 1 :=
  ⟨rfl, rfl⟩

/-- C5 failing trace: a completion event arriving after `stop()` then
`reset()` is not ignored — the final status is `stopped` (not `idle`), an
artifact is published and the completion callback is invoked once (with an
empty blob, the buffer having been cleared by `reset`). -/
theorem late_completion_not_ignored :
    (run [Event.startCmd, Event.grant "m", Event.dataAvailable [7],
          Event.stopCmd, Event.resetCmd, Event.completion]
        initConfig).status = RecordingStatus.stopped ∧
    (run [Event.startCmd, Event.grant "m", Event.dataAvailable [7],
          Event.stopCmd, Event.resetCmd, Event.completion]
        initConfig).onStopCalls.length = 1 ∧
    (run [Event.startCmd, Event.grant "m", Event.dataAvailable [7],
          Event.stopCmd, Event.resetCmd, Event.completion]
        initConfig).mediaBlobUrl.isSome = true :=
  ⟨rfl, rfl, rfl⟩

/-- C6: when a pending access request fails, a permission refusal yields
`permission_denied` and any other acquisition error yields `idle`, as
observable state; in both cases no device is opened (stream ref, recorder
ref, stream counter and release table are all unchanged). -/
theorem access_failure_states (c : Config) (p : Bool)
    (h : 0 < c.pendingStarts) :
    (step (Event.deny p) c).status
        = (if p then RecordingStatus.permission_denied else RecordingStatus.idle) ∧
    (step (Event.deny p) c).streamRef = c.streamRef ∧
    (step (Event.deny p) c).mediaRecorderRef = c.mediaRecorderRef ∧
    (step (Event.deny p) c).nextStreamId = c.nextStreamId ∧
    (step (Event.deny p) c).releases = c.releases := by
  simp [step, startDenied, h]

/-- Witness for C6 at a concrete input: one `start()` request in flight
from the initial state, refused for a permission reason. -/
theorem access_failure_states_witness :
    0 < (startRequest initConfig).pendingStarts ∧
    ((step (Event.deny true) (startRequest initConfig)).status
        = (if true then RecordingStatus.permission_denied else RecordingStatus.idle) ∧
     (step (Event.deny true) (startRequest initConfig)).streamRef
        = (startRequest initConfig).streamRef ∧
     (step (Event.deny true) (startRequest initConfig)).mediaRecorderRef
        = (startRequest initConfig).mediaRecorderRef ∧
     (step (Event.deny true) (startRequest initConfig)).nextStreamId
        = (startRequest initConfig).nextStreamId ∧
     (step (Event.deny true) (startRequest initConfig)).releases
        = (startRequest initConfig).releases) :=
  ⟨by decide, access_failure_states (startRequest initConfig) true (by decide)⟩

/-- C9: from `paused` with accumulated chunks `cs` holding some bytes,
`stopRecording` followed by the completion callback still finalizes: the
status becomes `stopped` and the artifact is the non-empty concatenation
of the pre-pause fragments. -/
theorem stop_from_paused_finalizes (c : Config) (r : Recorder)
    (cs : List (List Nat)) (hs : c.status = .paused)
    (hr : c.mediaRecorderRef = some r) (hc : c.audioChunksRef = cs)
    (hne : cs.flatten ≠ []) :
    (step Event.completion (step Event.stopCmd c)).status
        = RecordingStatus.stopped ∧
    (step Event.completion (step Event.stopCmd c)).mediaBlobUrl
        = some ⟨cs.flatten, r.mimeType⟩ ∧
    cs.flatten ≠ [] := by
  refine ⟨?_, ?_, hne⟩ <;>
    rcases hstream : c.streamRef with _ | sid <;>
      simp [step, stopRecording, onStopHandler, hr, hs, hc, hstream, Nat.succ_pos]

/-- Witness for C9 at a concrete input: a paused session holding the
single chunk `[5]` is stopped and finalized to the blob `[5]`. -/
theorem stop_from_paused_finalizes_witness :
    pausedConfig.status = .paused ∧
    pausedConfig.mediaRecorderRef = some ⟨0, "audio/webm"⟩ ∧
    pausedConfig.audioChunksRef = [[5]] ∧
    ([[5]] : List (List Nat)).flatten ≠ [] ∧
    ((step Event.completion (step Event.stopCmd pausedConfig)).status
        = RecordingStatus.stopped ∧
     (step Event.completion (step Event.stopCmd pausedConfig)).mediaBlobUrl
        = some ⟨[5], "audio/webm"⟩ ∧
     ([[5]] : List (List Nat)).flatten ≠ []) :=
  ⟨rfl, rfl, rfl, by decide,
    stop_from_paused_finalizes pausedConfig ⟨0, "audio/webm"⟩ [[5]]
      rfl rfl rfl (by decide)⟩

/-- C10: `stopRecording` never changes the observable status synchronously
(in particular, from `recording`/`paused` the status keeps its prior value
during the pending-finalize window), and no step sets the status to
`stopped` except the completion (`onstop`) callback. -/
theorem stop_does_not_change_status (c d : Config) (e : Event) :
    (step Event.stopCmd c).status = c.status ∧
    ((step e d).status = RecordingStatus.stopped →
      d.status = RecordingStatus.stopped ∨ e = Event.completion) := by
  constructor
  · show (stopRecording c).status = c.status
    unfold stopRecording
    split
    · split <;> rfl
    · rfl
  · intro h
    cases e with
    | completion => exact Or.inr rfl
    | startCmd => exact Or.inl h
    | grant m =>
        refine Or.inl ?_
        simp only [step, startGranted] at h
        split at h
        · simp at h
        · exact h
    | deny p =>
        refine Or.inl ?_
        simp only [step, startDenied] at h
        split at h
        · cases p <;> simp at h
        · exact h
    | stopCmd =>
        refine Or.inl ?_
        simp only [step, stopRecording] at h
        split at h
        · split at h <;> exact h
        · exact h
    | pauseCmd =>
        refine Or.inl ?_
        simp only [step, pauseRecording] at h
        split at h
        · simp at h
        · exact h
    | resumeCmd =>
        refine Or.inl ?_
        simp only [step, resumeRecording] at h
        split at h
        · simp at h
        · exact h
    | resetCmd =>
        refine Or.inl ?_
        simp only [step, reset] at h
        simp at h
    | dataAvailable b =>
        refine Or.inl ?_
        simp only [step, onDataAvailable] at h
        split at h
        · exact h
        · exact h

/-- Witness for C10 at concrete inputs: stopping a paused session does not
change its status, and the only way the stop-pending session reaches
`stopped` is the completion event. -/
theorem stop_does_not_change_status_witness :
    (step Event.stopCmd pausedConfig).status = pausedConfig.status ∧
    (stopPendingConfig.status = RecordingStatus.stopped ∨
      Event.completion = Event.completion) :=
  ⟨(stop_does_not_change_status pausedConfig stopPendingConfig Event.completion).1,
   (stop_does_not_change_status pausedConfig stopPendingConfig Event.completion).2
     (by decide)⟩

end MediaRecord
